import Mathlib

/-!
Verification of the runtime-readiness analyzer server (`server.py`).

The four tool operations (`check_system_resources`,
`analyze_project_dependencies`, `detect_heavy_requirements`,
`generate_readiness_report`) and the dispatcher (`call_tool`) are embedded
shallowly.  Host and filesystem state that Python reads (psutil figures, the
GPU probe outcome, the manifest file, the files seen by `os.walk`) is
collected in an `Env` record; each operation is a pure function of the
environment.  A Python function that can let an exception escape to its
caller is modelled with `Except String`; a function whose `try/except`
guarantees a textual result is modelled as total.
-/

namespace RuntimeReadiness

/-- Python's `needle in hay` prefix test on character lists:
`strStarts n h` is true when `n` is an initial segment of `h`. -/
def strStarts : List Char → List Char → Bool
  | [], _ => true
  | _ :: _, [] => false
  | a :: as, b :: bs => a == b && strStarts as bs

/-- Substring occurrence on character lists: true when the needle occurs
contiguously anywhere in the haystack (Python's `in` on strings). -/
def strFind : List Char → List Char → Bool
  | n, [] => n.isEmpty
  | n, b :: bs => strStarts n (b :: bs) || strFind n bs

/-- Predicate `strIn needle hay` models Python's `needle in hay` substring test. -/
def strIn (needle hay : String) : Bool :=
  strFind needle.data hay.data

/-- Outcome of the GPU probe at `server.py:89-95`: `import torch` either
raises `ImportError` (library absent), or the CUDA query answers, or the
query itself raises some other exception (which the inner
`except ImportError` does not catch). -/
inductive GpuProbe where
  | noTorch : GpuProbe
  | cudaOk : String → GpuProbe
  | noCuda : GpuProbe
  | probeError : String → GpuProbe
deriving DecidableEq

instance {ε α : Type} [DecidableEq ε] [DecidableEq α] :
    DecidableEq (Except ε α) := fun x y =>
  match x, y with
  | Except.ok a, Except.ok b =>
      if h : a = b then isTrue (by rw [h])
      else isFalse (by intro hc; cases hc; exact h rfl)
  | Except.ok _, Except.error _ => isFalse (by intro hc; cases hc)
  | Except.error _, Except.ok _ => isFalse (by intro hc; cases hc)
  | Except.error e, Except.error e2 =>
      if h : e = e2 then isTrue (by rw [h])
      else isFalse (by intro hc; cases hc; exact h rfl)

/-- One file yielded by `os.walk` at `server.py:153-154`, with the outcome
of `open(path).read()`: the content string (decode errors already dropped
by `errors="ignore"`), or the message of the `OSError` that `open` raised. -/
structure WalkFile where
  name : String
  readResult : Except String String
deriving DecidableEq

/-- The host and filesystem state read by one request.  `psutilError` set
means one of the psutil calls at `server.py:76-84` raised; `reqFile` is the
state of `<project_path>/requirements.txt` (absent / readable content /
open error); `files` lists what `os.walk` yields, in traversal order
(`os.walk` itself swallows traversal errors, its default `onerror` is
`None`, so failing directories simply contribute no entries). -/
structure Env where
  psutilError : Option String
  physicalCores : Option Nat
  logicalCores : Option Nat
  cpuFreqMax : Option ℚ
  memTotalBytes : Nat
  memAvailableBytes : Nat
  memPercent : ℚ
  diskTotalBytes : Nat
  diskFreeBytes : Nat
  diskPercent : ℚ
  gpuProbe : GpuProbe
  platformSystem : String
  platformMachine : String
  pythonVersion : String
  reqFile : Option (Except String String)
  files : List WalkFile
deriving DecidableEq

/-- The structured resource dictionary built at `server.py:97-122` and
serialized with `json.dumps`.  `maxFreqMhz = none` stands for the string
`"unknown"` written when `cpu_freq()` returned `None`. -/
structure Snapshot where
  physicalCores : Option Nat
  logicalCores : Option Nat
  maxFreqMhz : Option ℚ
  totalGb : ℚ
  availableGb : ℚ
  memPercent : ℚ
  diskTotalGb : ℚ
  diskFreeGb : ℚ
  diskPercent : ℚ
  gpuAvailable : Bool
  gpuInfo : String
  platformSystem : String
  platformMachine : String
  pythonVersion : String
deriving DecidableEq

/-- Result of `check_system_resources`: the JSON dump of a snapshot, or the
error text from the `except` at `server.py:126-127`.  `json.loads` of the
`ok` form recovers the snapshot; `json.loads` of the `errText` form raises,
since that text is a plain sentence, not JSON. -/
inductive ResourceResult where
  | ok : Snapshot → ResourceResult
  | errText : String → ResourceResult
deriving DecidableEq

/-- Result of `analyze_project_dependencies`: the JSON dump of the package
list, or the error text from the `except` at `server.py:138-139`. -/
inductive AnalyzeResult where
  | ok : List String → AnalyzeResult
  | errText : String → AnalyzeResult
deriving DecidableEq

/-- Python's `round(q, 2)` (round half to even) on an exact rational. -/
def round2 (q : ℚ) : ℚ :=
  let t := q * 100
  let f : Int := Rat.floor t
  if t - f = 1 / 2 then (if f % 2 = 0 then (f : ℚ) else (f : ℚ) + 1) / 100
  else ((Rat.floor (t + 1 / 2) : Int) : ℚ) / 100

/-- Byte counts to gigabytes, `bytes / (1024**3)` (`server.py:81-84`). -/
def bytesToGb (b : Nat) : ℚ :=
  (b : ℚ) / (1024 ^ 3)

/-- Python's `repr` of a non-negative float whose value is an integer
multiple of 1/100, as interpolated into the f-string at `server.py:202`:
an integer part, a dot, and the fractional digits without a trailing zero
(at least one digit, so `2` prints as `"2.0"`). -/
def pyFloatRepr (q : ℚ) : String :=
  let n : Nat := (Rat.floor (q * 100)).toNat
  let ip := n / 100
  let fr := n % 100
  if fr = 0 then toString ip ++ ".0"
  else if fr % 10 = 0 then toString ip ++ "." ++ toString (fr / 10)
  else if fr < 10 then toString ip ++ ".0" ++ toString fr
  else toString ip ++ "." ++ toString fr

/-- The inner GPU probe at `server.py:87-95`: `ImportError` is caught and
leaves the defaults `(False, "No GPU detected")`; a reported device sets
`(True, "CUDA available: <name>")`; any other exception escapes the inner
`try` (only the operation-level handler can catch it). -/
def gpuDetect : GpuProbe → Except String (Bool × String)
  | GpuProbe.noTorch => Except.ok (false, "No GPU detected")
  | GpuProbe.noCuda => Except.ok (false, "No GPU detected")
  | GpuProbe.cudaOk n => Except.ok (true, "CUDA available: " ++ n)
  | GpuProbe.probeError e => Except.error e

/-- Embedding of `check_system_resources` (`server.py:73-127`): builds the snapshot from
psutil figures and the GPU probe; the surrounding `try/except Exception`
converts any failure (a psutil error, or a non-ImportError from the probe)
into the `"Error checking system resources: ..."` text. -/
def check_system_resources (env : Env) : ResourceResult :=
  match env.psutilError with
  | some e => ResourceResult.errText ("Error checking system resources: " ++ e)
  | none =>
    match gpuDetect env.gpuProbe with
    | Except.error e =>
        ResourceResult.errText ("Error checking system resources: " ++ e)
    | Except.ok (gavail, ginfo) =>
        ResourceResult.ok
          { physicalCores := env.physicalCores
            logicalCores := env.logicalCores
            maxFreqMhz := env.cpuFreqMax
            totalGb := round2 (bytesToGb env.memTotalBytes)
            availableGb := round2 (bytesToGb env.memAvailableBytes)
            memPercent := env.memPercent
            diskTotalGb := round2 (bytesToGb env.diskTotalBytes)
            diskFreeGb := round2 (bytesToGb env.diskFreeBytes)
            diskPercent := env.diskPercent
            gpuAvailable := gavail
            gpuInfo := ginfo
            platformSystem := env.platformSystem
            platformMachine := env.platformMachine
            pythonVersion := env.pythonVersion }

/-- The lines Python's `for line in f` iterates over, minus the trailing
`"\n"` each kept line carries: splitting on `"\n"`.  (The split yields an
extra empty segment where Python yields a bare `"\n"` line or nothing at
the end of the file; both are discarded by the `line.strip()` guard, so the
comprehension's result is unchanged.) -/
def pyLines (s : String) : List String :=
  s.splitOn "\n"

/-- The list comprehension at `server.py:136`:
`[line.strip() for line in f if line.strip() and not line.startswith('#')]`.
Note the `startswith` test runs on the raw line, before stripping. -/
def parseRequirements : List String → List String
  | [] => []
  | line :: rest =>
    if line.trim ≠ "" ∧ ¬ line.startsWith "#" then
      line.trim :: parseRequirements rest
    else parseRequirements rest

/-- Embedding of `analyze_project_dependencies` (`server.py:129-139`): missing manifest
gives the empty package list; an open failure is caught by the `except` and
becomes the `"Error analyzing dependencies: ..."` text. -/
def analyze_project_dependencies (env : Env) : AnalyzeResult :=
  match env.reqFile with
  | none => AnalyzeResult.ok []
  | some (Except.error e) =>
      AnalyzeResult.errText ("Error analyzing dependencies: " ++ e)
  | some (Except.ok content) =>
      AnalyzeResult.ok (parseRequirements (pyLines content))

/-- The manifest scan of `detect_heavy_requirements` (`server.py:146-151`):
the file text is lowercased once; each of the two fixed keyword sets
appends at most one finding via `any(...)`. -/
def manifestFindings (content : String) : List String :=
  let reqs := content.toLower
  (if ["tensorflow", "torch", "keras"].any (fun lib => strIn lib reqs) then
    ["ML framework detected - may require GPU/RAM"]
  else []) ++
  (if ["transformers", "diffusers"].any (fun lib => strIn lib reqs) then
    ["Large ML models detected - high GPU/VRAM recommended"]
  else [])

/-- The per-file checks at `server.py:158-162` on one opened `.py` file:
the content is lowercased; a GPU-invocation substring appends one finding,
a model-name substring appends another. -/
def fileFindings (name content : String) : List String :=
  let code := content.toLower
  (if strIn "torch.cuda" code || strIn "tensorflow.device" code then
    ["GPU usage detected in " ++ name]
  else []) ++
  (if ["bert", "gpt", "resnet"].any (fun m => strIn m code) then
    ["Large ML model reference detected in " ++ name]
  else [])

/-- The `os.walk` loop at `server.py:153-162`: files are visited in walk
order, only names ending in `".py"` are opened, and the `open` has no
`try/except` around it, so the first open failure raises and abandons the
loop (and with it every finding gathered so far). -/
def scanFiles : List WalkFile → Except String (List String)
  | [] => Except.ok []
  | f :: rest =>
    if f.name.endsWith ".py" then
      match f.readResult with
      | Except.error e => Except.error e
      | Except.ok content =>
          match scanFiles rest with
          | Except.error e => Except.error e
          | Except.ok tail => Except.ok (fileFindings f.name content ++ tail)
    else scanFiles rest

/-- Embedding of `detect_heavy_requirements` (`server.py:141-167`): manifest findings
first (the manifest `open` at line 146 is also unguarded and raises on
failure), then the source-file findings, then the sentinel when nothing was
found.  The function has no `try/except`, so any raise propagates. -/
def detect_heavy_requirements (env : Env) : Except String (List String) :=
  match
    (match env.reqFile with
     | none => Except.ok []
     | some (Except.error e) => Except.error e
     | some (Except.ok content) => Except.ok (manifestFindings content)) with
  | Except.error e => Except.error e
  | Except.ok base =>
    match scanFiles env.files with
    | Except.error e => Except.error e
    | Except.ok fileInds =>
        let inds := base ++ fileInds
        Except.ok
          (if inds.isEmpty then
            ["No heavy computational requirements detected"]
          else inds)

/-- The loop at `server.py:193-196`: for every heavy finding whose text
contains `"GPU usage detected"` while the snapshot's GPU flag is false, one
`"GPU is required but not available"` issue is appended. -/
def gpuIssues (gpuAvailable : Bool) : List String → List String
  | [] => []
  | t :: rest =>
    (if strIn "GPU usage detected" t && !gpuAvailable then
      ["GPU is required but not available"]
    else []) ++ gpuIssues gpuAvailable rest

/-- The memory rule at `server.py:199-202`: available memory strictly below
4 GB appends one issue interpolating the parsed float. -/
def memIssues (availableGb : ℚ) : List String :=
  if availableGb < 4 then
    ["Not enough RAM: " ++ pyFloatRepr availableGb ++ " GB available"]
  else []

/-- The readiness report of `generate_readiness_report`, keeping the three
section payloads and the derived verdict.  (The surrounding section-header
text lines of `server.py:177-184` carry no data and are not modelled.) -/
structure Report where
  resources : ResourceResult
  deps : AnalyzeResult
  heavy : List String
  ready : Bool
  issues : List String
  verdictText : String
deriving DecidableEq

/-- Embedding of `generate_readiness_report` (`server.py:169-208`): runs the three
checks (the unguarded `detect_heavy_requirements` call at line 175 can
raise), then `json.loads(resources_check[0].text)` at line 191 — which
raises `JSONDecodeError` whenever the resource check returned its error
sentence instead of JSON — then applies the two verdict rules.  `ready`
starts true and is set false exactly when an issue is appended. -/
def generate_readiness_report (env : Env) : Except String Report :=
  let resources := check_system_resources env
  let deps := analyze_project_dependencies env
  match detect_heavy_requirements env with
  | Except.error e => Except.error e
  | Except.ok heavy =>
    match resources with
    | ResourceResult.errText e =>
        Except.error ("json.loads raised JSONDecodeError on: " ++ e)
    | ResourceResult.ok snap =>
        let issues := gpuIssues snap.gpuAvailable heavy ++ memIssues snap.availableGb
        let ready := issues.isEmpty
        Except.ok
          { resources := resources
            deps := deps
            heavy := heavy
            ready := ready
            issues := issues
            verdictText :=
              if ready then "✅ Project is ready to run!"
              else "⚠️ Project may not run properly: " ++ String.intercalate ", " issues }

/-- Outcome of one `call_tool` dispatch (`server.py:58-70`): the value the
selected implementation returned, or the exception that propagated — the
`ValueError` branch for an unknown name, or a raise from the callee. -/
inductive CallOutcome where
  | resourceRes : ResourceResult → CallOutcome
  | analyzeRes : AnalyzeResult → CallOutcome
  | heavyRes : List String → CallOutcome
  | reportRes : Report → CallOutcome
  | raised : String → CallOutcome
deriving DecidableEq

/-- Embedding of `call_tool` (`server.py:58-70`): four name matches in order, else
`raise ValueError(f"Unknown tool: {name}")`. -/
def call_tool (name : String) (env : Env) : CallOutcome :=
  if name = "check_system_resources" then
    CallOutcome.resourceRes (check_system_resources env)
  else if name = "analyze_project_dependencies" then
    CallOutcome.analyzeRes (analyze_project_dependencies env)
  else if name = "detect_heavy_requirements" then
    match detect_heavy_requirements env with
    | Except.ok r => CallOutcome.heavyRes r
    | Except.error e => CallOutcome.raised e
  else if name = "generate_readiness_report" then
    match generate_readiness_report env with
    | Except.ok r => CallOutcome.reportRes r
    | Except.error e => CallOutcome.raised e
  else CallOutcome.raised ("Unknown tool: " ++ name)

/-- A healthy host with 8 GB available memory, no torch installed, no
manifest and no project files; concrete instances below vary it. -/
def baseEnv : Env :=
  { psutilError := none
    physicalCores := some 4
    logicalCores := some 8
    cpuFreqMax := some 3600
    memTotalBytes := 16 * 1024 ^ 3
    memAvailableBytes := 8 * 1024 ^ 3
    memPercent := 50
    diskTotalBytes := 512 * 1024 ^ 3
    diskFreeBytes := 256 * 1024 ^ 3
    diskPercent := 50
    gpuProbe := GpuProbe.noTorch
    platformSystem := "Linux"
    platformMachine := "x86_64"
    pythonVersion := "3.11.0"
    reqFile := none
    files := [] }

/-- Check that every `.py` file the walk yields will open successfully. -/
def pyReadable : List WalkFile → Bool
  | [] => true
  | f :: rest => (!(f.name.endsWith ".py") || f.readResult.isOk) && pyReadable rest

/-- Check that the manifest, when present, will open successfully. -/
def reqOpenOk : Option (Except String String) → Bool
  | some (Except.error _) => false
  | _ => true

/-- Check whether the resource inspection produced a snapshot (rather than
its error text). -/
def resourceOk (env : Env) : Bool :=
  match check_system_resources env with
  | ResourceResult.ok _ => true
  | ResourceResult.errText _ => false

theorem strStarts_self : (l : List Char) → strStarts l l = true
  | [] => rfl
  | c :: cs => by simp [strStarts, strStarts_self cs]

theorem strFind_suffix (t s : List Char) : strFind s (t ++ s) = true := by
  induction t with
  | nil =>
    cases s with
    | nil => rfl
    | cons c cs => simp [strFind, strStarts_self]
  | cons c t ih => simp [strFind, ih]

theorem strIn_of_append (t s : String) : strIn s (t ++ s) = true := by
  unfold strIn
  have h : (t ++ s).data = t.data ++ s.data := rfl
  rw [h]
  exact strFind_suffix _ _

theorem ne_of_starts_diff (p : List Char) {s t : String}
    (h : strStarts p s.data ≠ strStarts p t.data) : s ≠ t := by
  intro he
  exact h (by rw [he])

theorem gpuFileMsg_ne_mlMsg (n : String) :
    "GPU usage detected in " ++ n ≠ "ML framework detected - may require GPU/RAM" := by
  apply ne_of_starts_diff (String.data "G")
  have hL : strStarts (String.data "G")
      (String.data ("GPU usage detected in " ++ n)) = true := rfl
  have hR : strStarts (String.data "G")
      (String.data "ML framework detected - may require GPU/RAM") = false := rfl
  rw [hL, hR]
  decide

theorem gpuFileMsg_ne_largeMsg (n : String) :
    "GPU usage detected in " ++ n ≠
      "Large ML models detected - high GPU/VRAM recommended" := by
  apply ne_of_starts_diff (String.data "G")
  have hL : strStarts (String.data "G")
      (String.data ("GPU usage detected in " ++ n)) = true := rfl
  have hR : strStarts (String.data "G")
      (String.data "Large ML models detected - high GPU/VRAM recommended") = false := rfl
  rw [hL, hR]
  decide

theorem refFileMsg_ne_mlMsg (n : String) :
    "Large ML model reference detected in " ++ n ≠
      "ML framework detected - may require GPU/RAM" := by
  apply ne_of_starts_diff (String.data "L")
  have hL : strStarts (String.data "L")
      (String.data ("Large ML model reference detected in " ++ n)) = true := rfl
  have hR : strStarts (String.data "L")
      (String.data "ML framework detected - may require GPU/RAM") = false := rfl
  rw [hL, hR]
  decide

theorem refFileMsg_ne_largeMsg (n : String) :
    "Large ML model reference detected in " ++ n ≠
      "Large ML models detected - high GPU/VRAM recommended" := by
  apply ne_of_starts_diff (String.data "Large ML models")
  have hL : strStarts (String.data "Large ML models")
      (String.data ("Large ML model reference detected in " ++ n)) = false := rfl
  have hR : strStarts (String.data "Large ML models")
      (String.data "Large ML models detected - high GPU/VRAM recommended") = true := rfl
  rw [hL, hR]
  decide

theorem gpuIssues_eq_replicate (b : Bool) (l : List String) :
    gpuIssues b l =
      List.replicate (l.countP (fun t => strIn "GPU usage detected" t && !b))
        "GPU is required but not available" := by
  induction l with
  | nil => rfl
  | cons t rest ih =>
    rw [List.countP_cons]
    cases hc : (strIn "GPU usage detected" t && !b) with
    | true => simp [gpuIssues, hc, ih, List.replicate_succ]
    | false => simp [gpuIssues, hc, ih]

theorem gpuIssues_of_true (l : List String) : gpuIssues true l = [] := by
  rw [gpuIssues_eq_replicate]
  simp

theorem gpuIssues_of_false (l : List String) :
    gpuIssues false l =
      List.replicate (l.countP (fun t => strIn "GPU usage detected" t))
        "GPU is required but not available" := by
  rw [gpuIssues_eq_replicate]
  simp

theorem eq_of_mem_gpuIssues {b : Bool} {l : List String} {t : String}
    (h : t ∈ gpuIssues b l) : t = "GPU is required but not available" := by
  rw [gpuIssues_eq_replicate] at h
  exact List.eq_of_mem_replicate h

theorem parseRequirements_eq (lines : List String) :
    parseRequirements lines =
      (lines.filter (fun l => !(l.trim == "") && !(l.startsWith "#"))).map
        String.trim := by
  induction lines with
  | nil => rfl
  | cons l rest ih =>
    by_cases ht : l.trim = "" <;> by_cases hh : l.startsWith "#" = true <;>
      simp [parseRequirements, List.filter_cons, ht, hh, ih]

theorem scanFiles_mem_shape :
    (files : List WalkFile) → (fs : List String) →
    scanFiles files = Except.ok fs → (t : String) → t ∈ fs →
    (∃ n, t = "GPU usage detected in " ++ n) ∨
    (∃ n, t = "Large ML model reference detected in " ++ n)
  | [], fs, h, t, ht => by
      cases h
      cases ht
  | f :: rest, fs, h, t, ht => by
      unfold scanFiles at h
      by_cases hpy : f.name.endsWith ".py" = true
      · rw [if_pos hpy] at h
        cases hread : f.readResult with
        | error e => rw [hread] at h; cases h
        | ok content =>
          rw [hread] at h
          cases hrest : scanFiles rest with
          | error e => rw [hrest] at h; cases h
          | ok tail =>
            rw [hrest] at h
            cases h
            rcases List.mem_append.mp ht with hmem | hmem
            · unfold fileFindings at hmem
              rcases List.mem_append.mp hmem with hm | hm
              · left
                refine ⟨f.name, ?_⟩
                by_cases hc : (strIn "torch.cuda" content.toLower ||
                    strIn "tensorflow.device" content.toLower) = true
                · rw [if_pos hc] at hm
                  simpa using hm
                · rw [if_neg hc] at hm
                  cases hm
              · right
                refine ⟨f.name, ?_⟩
                by_cases hc : (["bert", "gpt", "resnet"].any
                    (fun m => strIn m content.toLower)) = true
                · rw [if_pos hc] at hm
                  simpa using hm
                · rw [if_neg hc] at hm
                  cases hm
            · exact scanFiles_mem_shape rest tail hrest t hmem
      · rw [if_neg hpy] at h
        exact scanFiles_mem_shape rest fs h t ht

theorem scanFiles_isOk (files : List WalkFile) :
    (scanFiles files).isOk = pyReadable files := by
  induction files with
  | nil => rfl
  | cons f rest ih =>
    unfold scanFiles pyReadable
    cases hpy : f.name.endsWith ".py" with
    | false => simp [hpy, ih]
    | true =>
      cases hread : f.readResult with
      | error e => simp [hpy, hread, Except.isOk, Except.toBool]
      | ok content =>
        cases hrest : scanFiles rest with
        | error e =>
          rw [hrest] at ih
          simp [hpy, hread, hrest, Except.isOk, Except.toBool, ← ih]
        | ok tail =>
          rw [hrest] at ih
          simp [hpy, hread, hrest, Except.isOk, Except.toBool, ← ih]

theorem detect_isOk (env : Env) :
    (detect_heavy_requirements env).isOk =
      (reqOpenOk env.reqFile && pyReadable env.files) := by
  have hscan := scanFiles_isOk env.files
  unfold detect_heavy_requirements reqOpenOk
  cases hreq : env.reqFile with
  | none =>
    cases h : scanFiles env.files with
    | error e =>
      rw [h] at hscan
      simp [Except.isOk, Except.toBool, ← hscan]
    | ok fs =>
      rw [h] at hscan
      simp [Except.isOk, Except.toBool, ← hscan]
  | some rr =>
    cases rr with
    | error e => simp [Except.isOk, Except.toBool]
    | ok content =>
      cases h : scanFiles env.files with
      | error e =>
        rw [h] at hscan
        simp [Except.isOk, Except.toBool, ← hscan]
      | ok fs =>
        rw [h] at hscan
        simp [Except.isOk, Except.toBool, ← hscan]

theorem generate_isOk (env : Env) :
    (generate_readiness_report env).isOk =
      (reqOpenOk env.reqFile && pyReadable env.files && resourceOk env) := by
  cases hd : detect_heavy_requirements env with
  | error e =>
    have hfalse : (reqOpenOk env.reqFile && pyReadable env.files) = false := by
      rw [← detect_isOk env, hd]
      rfl
    simp [generate_readiness_report, hd, hfalse, Except.isOk, Except.toBool]
  | ok heavy =>
    have htrue : (reqOpenOk env.reqFile && pyReadable env.files) = true := by
      rw [← detect_isOk env, hd]
      rfl
    cases hc : check_system_resources env with
    | errText e =>
      simp [generate_readiness_report, resourceOk, hd, hc, htrue,
        Except.isOk, Except.toBool]
    | ok snap =>
      simp [generate_readiness_report, resourceOk, hd, hc, htrue,
        Except.isOk, Except.toBool]

theorem generate_fields (env : Env) (s : Snapshot) (r : Report)
    (hs : check_system_resources env = ResourceResult.ok s)
    (hr : generate_readiness_report env = Except.ok r) :
    r.issues = gpuIssues s.gpuAvailable r.heavy ++ memIssues s.availableGb ∧
    r.ready = r.issues.isEmpty ∧
    detect_heavy_requirements env = Except.ok r.heavy := by
  cases hd : detect_heavy_requirements env with
  | error e =>
    simp only [generate_readiness_report, hd] at hr
    cases hr
  | ok heavy =>
    simp only [generate_readiness_report, hd, hs] at hr
    cases hr
    refine ⟨rfl, rfl, ?_⟩
    rfl

/-- C2: whenever some heavy-usage finding contains the GPU-usage marker and
the resource snapshot reports the GPU unavailable, the report's verdict is
not-ready and its issue list contains "GPU is required but not available";
and with available memory 8 GB and exactly one GPU-usage finding, the
verdict is not-ready with exactly one issue mentioning "GPU". -/
theorem C2_gpu_verdict_rule (env : Env) (s : Snapshot) (r : Report)
    (hs : check_system_resources env = ResourceResult.ok s)
    (hgpu : s.gpuAvailable = false)
    (hr : generate_readiness_report env = Except.ok r) :
    ((∃ t ∈ r.heavy, strIn "GPU usage detected" t = true) →
      r.ready = false ∧ "GPU is required but not available" ∈ r.issues) ∧
    (s.availableGb = 8 →
      r.heavy.countP (fun t => strIn "GPU usage detected" t) = 1 →
      r.ready = false ∧
      r.issues.countP (fun t => strIn "GPU" t) = 1) := by
  obtain ⟨hiss, hready, -⟩ := generate_fields env s r hs hr
  rw [hgpu, gpuIssues_of_false] at hiss
  constructor
  · rintro ⟨t, htmem, htp⟩
    have hpos : 0 < r.heavy.countP (fun t => strIn "GPU usage detected" t) :=
      List.countP_pos_iff.mpr ⟨t, htmem, htp⟩
    constructor
    · rw [hready, hiss]
      cases hk : r.heavy.countP (fun t => strIn "GPU usage detected" t) with
      | zero =>
        rw [hk] at hpos
        exact absurd hpos (lt_irrefl 0)
      | succ k => simp [List.replicate_succ]
    · rw [hiss]
      refine List.mem_append.mpr (Or.inl ?_)
      rw [List.mem_replicate]
      exact ⟨Nat.pos_iff_ne_zero.mp hpos, rfl⟩
  · intro hmem8 hcount
    rw [hmem8] at hiss
    have hm : memIssues 8 = [] := by with_unfolding_all rfl
    rw [hcount, hm] at hiss
    constructor
    · rw [hready, hiss]
      rfl
    · rw [hiss]
      decide

/-- C3: whenever the resource snapshot's available memory is strictly below
4 GB, the report's verdict is not-ready and the issue list contains
"Not enough RAM: <amount> GB available" naming the actual amount; with
2 GB available and no GPU-usage finding the issue list has exactly one
issue mentioning "2.0"; and with at least 4 GB available no issue mentions
"Not enough RAM". -/
theorem C3_memory_verdict_rule (env : Env) (s : Snapshot) (r : Report)
    (hs : check_system_resources env = ResourceResult.ok s)
    (hr : generate_readiness_report env = Except.ok r) :
    (s.availableGb < 4 →
      r.ready = false ∧
      ("Not enough RAM: " ++ pyFloatRepr s.availableGb ++ " GB available") ∈
        r.issues) ∧
    (s.availableGb = 2 →
      r.heavy.countP (fun t => strIn "GPU usage detected" t) = 0 →
      r.ready = false ∧
      r.issues.countP (fun t => strIn "2.0" t) = 1) ∧
    (4 ≤ s.availableGb →
      ∀ t ∈ r.issues, strIn "Not enough RAM" t = false) := by
  obtain ⟨hiss, hready, -⟩ := generate_fields env s r hs hr
  refine ⟨?_, ?_, ?_⟩
  · intro hlt
    have hm : memIssues s.availableGb =
        ["Not enough RAM: " ++ pyFloatRepr s.availableGb ++ " GB available"] := by
      rw [memIssues, if_pos hlt]
    constructor
    · rw [hready, hiss, hm]
      cases gpuIssues s.gpuAvailable r.heavy <;> rfl
    · rw [hiss, hm]
      exact List.mem_append.mpr (Or.inr (List.mem_singleton.mpr rfl))
  · intro h2 hcount
    have hzero : gpuIssues s.gpuAvailable r.heavy = [] := by
      cases hb : s.gpuAvailable with
      | true => exact gpuIssues_of_true _
      | false =>
        rw [gpuIssues_of_false, hcount]
        rfl
    rw [hzero, h2] at hiss
    have hm2 : memIssues 2 = ["Not enough RAM: 2.0 GB available"] := by
      with_unfolding_all rfl
    rw [hm2, List.nil_append] at hiss
    constructor
    · rw [hready, hiss]
      rfl
    · rw [hiss]
      decide
  · intro hge t htmem
    have hm : memIssues s.availableGb = [] := by
      rw [memIssues, if_neg (not_lt.mpr hge)]
    rw [hiss, hm, List.append_nil] at htmem
    rw [eq_of_mem_gpuIssues htmem]
    decide

/-- The host of `baseEnv` with a project holding one GPU-using source file. -/
def envGpuProject : Env :=
  { baseEnv with files := [⟨"train.py", Except.ok "torch.cuda.is_available()"⟩] }

/-- The snapshot `check_system_resources` produces on `baseEnv`. -/
def snapMem8 : Snapshot :=
  { physicalCores := some 4
    logicalCores := some 8
    maxFreqMhz := some 3600
    totalGb := 16
    availableGb := 8
    memPercent := 50
    diskTotalGb := 512
    diskFreeGb := 256
    diskPercent := 50
    gpuAvailable := false
    gpuInfo := "No GPU detected"
    platformSystem := "Linux"
    platformMachine := "x86_64"
    pythonVersion := "3.11.0" }

/-- The report `generate_readiness_report` produces on `envGpuProject`. -/
def repGpuProject : Report :=
  { resources := ResourceResult.ok snapMem8
    deps := AnalyzeResult.ok []
    heavy := ["GPU usage detected in train.py"]
    ready := false
    issues := ["GPU is required but not available"]
    verdictText :=
      "⚠️ Project may not run properly: GPU is required but not available" }

/-- Witness for C2 at `envGpuProject`: 8 GB available, one GPU-usage
finding, GPU unavailable. -/
theorem C2_gpu_verdict_rule_witness :
    repGpuProject.ready = false ∧
    "GPU is required but not available" ∈ repGpuProject.issues ∧
    repGpuProject.issues.countP (fun t => strIn "GPU" t) = 1 := by
  have h := C2_gpu_verdict_rule envGpuProject snapMem8 repGpuProject
    (by with_unfolding_all rfl) rfl (by with_unfolding_all rfl)
  have hmem : ∃ t ∈ repGpuProject.heavy, strIn "GPU usage detected" t = true :=
    ⟨"GPU usage detected in train.py", by decide, by decide⟩
  exact ⟨(h.1 hmem).1, (h.1 hmem).2, (h.2 rfl (by decide)).2⟩

/-- The host of `baseEnv` with only 2 GB of available memory. -/
def envLowMem : Env :=
  { baseEnv with memAvailableBytes := 2 * 1024 ^ 3 }

/-- The snapshot `check_system_resources` produces on `envLowMem`. -/
def snapMem2 : Snapshot :=
  { snapMem8 with availableGb := 2 }

/-- The report `generate_readiness_report` produces on `envLowMem`. -/
def repLowMem : Report :=
  { resources := ResourceResult.ok snapMem2
    deps := AnalyzeResult.ok []
    heavy := ["No heavy computational requirements detected"]
    ready := false
    issues := ["Not enough RAM: 2.0 GB available"]
    verdictText :=
      "⚠️ Project may not run properly: Not enough RAM: 2.0 GB available" }

/-- Witness for C3 at `envLowMem`: 2 GB available, no GPU finding. -/
theorem C3_memory_verdict_rule_witness :
    repLowMem.ready = false ∧
    ("Not enough RAM: " ++ pyFloatRepr snapMem2.availableGb ++ " GB available") ∈
      repLowMem.issues ∧
    repLowMem.issues.countP (fun t => strIn "2.0" t) = 1 := by
  have h := C3_memory_verdict_rule envLowMem snapMem2 repLowMem
    (by with_unfolding_all rfl) (by with_unfolding_all rfl)
  have h1 := h.1 (by decide)
  exact ⟨h1.1, h1.2, (h.2.1 rfl (by decide)).2⟩

/-- C1 counterexample: when the resource inspection fails, its error text
reaches `json.loads` inside `generate_readiness_report`, which raises, and
the exception propagates to the caller instead of a textual result. -/
theorem C1_counterexample :
    generate_readiness_report { baseEnv with psutilError := some "boom" } =
      Except.error
        "json.loads raised JSONDecodeError on: Error checking system resources: boom" := by
  with_unfolding_all rfl

/-- C1 amended: `check_system_resources` and `analyze_project_dependencies`
never let an exception cross the operation boundary, but
`detect_heavy_requirements` succeeds only when the manifest and every
walked `.py` file open, and `generate_readiness_report` additionally needs
the resource check to have produced a snapshot (otherwise its `json.loads`
raises and the exception propagates). -/
theorem C1_propagation_amended (env : Env) :
    (∀ e, call_tool "check_system_resources" env ≠ CallOutcome.raised e) ∧
    (∀ e, call_tool "analyze_project_dependencies" env ≠ CallOutcome.raised e) ∧
    (detect_heavy_requirements env).isOk =
      (reqOpenOk env.reqFile && pyReadable env.files) ∧
    (generate_readiness_report env).isOk =
      (reqOpenOk env.reqFile && pyReadable env.files && resourceOk env) := by
  refine ⟨?_, ?_, detect_isOk env, generate_isOk env⟩
  · intro e h
    rw [show call_tool "check_system_resources" env =
      CallOutcome.resourceRes (check_system_resources env) from rfl] at h
    cases h
  · intro e h
    rw [show call_tool "analyze_project_dependencies" env =
      CallOutcome.analyzeRes (analyze_project_dependencies env) from rfl] at h
    cases h

/-- Parsing rule exactly as the claim words it: strip each line, then
discard the line when the stripped form is empty or begins with '#'. -/
def specParseRequirements (lines : List String) : List String :=
  (lines.map String.trim).filter (fun l => !(l == "") && !(l.startsWith "#"))

/-- C4 counterexample: a comment line indented by whitespace.  The code's
`startswith('#')` test runs on the raw line, so `"  #x"` is kept (stripped
to `"#x"`), while the claim's after-stripping rule discards it. -/
theorem C4_counterexample :
    analyze_project_dependencies
        { baseEnv with reqFile := some (Except.ok "  #x") } =
      AnalyzeResult.ok ["#x"] ∧
    specParseRequirements (pyLines "  #x") = [] := by
  exact ⟨by with_unfolding_all rfl, by with_unfolding_all rfl⟩

/-- C4 amended: the reader returns the stripped lines in file order without
deduplication or validation, discarding a line exactly when its stripped
form is empty or when its raw form begins with '#' (so an indented comment
line survives, stripped). -/
theorem C4_parsing_amended (env : Env) (content : String)
    (h : env.reqFile = some (Except.ok content)) :
    analyze_project_dependencies env =
      AnalyzeResult.ok
        (((pyLines content).filter
            (fun l => !(l.trim == "") && !(l.startsWith "#"))).map String.trim) := by
  unfold analyze_project_dependencies
  rw [h]
  exact congrArg AnalyzeResult.ok (parseRequirements_eq (pyLines content))

/-- Witness for C4 at a concrete manifest exercising comments, indented
comments, blank lines and duplicates. -/
theorem C4_parsing_amended_witness :
    analyze_project_dependencies
        { baseEnv with
            reqFile := some (Except.ok "torch>=2.0\n#c\n  #x\n\n numpy \nnumpy") } =
      AnalyzeResult.ok
        (((pyLines "torch>=2.0\n#c\n  #x\n\n numpy \nnumpy").filter
            (fun l => !(l.trim == "") && !(l.startsWith "#"))).map String.trim) :=
  C4_parsing_amended
    { baseEnv with
        reqFile := some (Except.ok "torch>=2.0\n#c\n  #x\n\n numpy \nnumpy") }
    "torch>=2.0\n#c\n  #x\n\n numpy \nnumpy" rfl

/-- C6 counterexample: an unreadable `.py` file makes the whole scan raise;
the other file's finding — produced when the unreadable file is absent —
is lost rather than the failing file being skipped. -/
theorem C6_counterexample :
    detect_heavy_requirements
        { baseEnv with files :=
            [⟨"a.py", Except.error "PermissionError: a.py"⟩,
             ⟨"b.py", Except.ok "torch.cuda"⟩] } =
      Except.error "PermissionError: a.py" ∧
    detect_heavy_requirements
        { baseEnv with files := [⟨"b.py", Except.ok "torch.cuda"⟩] } =
      Except.ok ["GPU usage detected in b.py"] := by
  exact ⟨by with_unfolding_all rfl, by with_unfolding_all rfl⟩

/-- C6 amended: directory-traversal failures are silently swallowed by the
walk and decode errors are tolerated, but the scan succeeds exactly when
the manifest (when present) and every walked `.py` file open successfully —
one open failure raises and aborts the whole scan. -/
theorem C6_scan_abort_amended (env : Env) :
    (detect_heavy_requirements env).isOk =
      (reqOpenOk env.reqFile && pyReadable env.files) :=
  detect_isOk env

/-- C7 counterexample: a probe outcome other than a missing library — the
CUDA query raising — escapes the inner `except ImportError` and aborts the
resource check into its error text (no snapshot is produced). -/
theorem C7_counterexample :
    check_system_resources
        { baseEnv with
            gpuProbe := GpuProbe.probeError "CUDA driver initialization failure" } =
      ResourceResult.errText
        "Error checking system resources: CUDA driver initialization failure" := by
  with_unfolding_all rfl

/-- C7 amended: when the GPU library is absent (`ImportError`), the check
proceeds and reports GPU unavailable with info "No GPU detected"; when the
probe raises anything else, the whole check degrades to its textual error
result (still no exception to the caller). -/
theorem C7_gpu_probe_amended (env : Env) (h : env.psutilError = none) :
    (env.gpuProbe = GpuProbe.noTorch →
      check_system_resources env = ResourceResult.ok
        { physicalCores := env.physicalCores
          logicalCores := env.logicalCores
          maxFreqMhz := env.cpuFreqMax
          totalGb := round2 (bytesToGb env.memTotalBytes)
          availableGb := round2 (bytesToGb env.memAvailableBytes)
          memPercent := env.memPercent
          diskTotalGb := round2 (bytesToGb env.diskTotalBytes)
          diskFreeGb := round2 (bytesToGb env.diskFreeBytes)
          diskPercent := env.diskPercent
          gpuAvailable := false
          gpuInfo := "No GPU detected"
          platformSystem := env.platformSystem
          platformMachine := env.platformMachine
          pythonVersion := env.pythonVersion }) ∧
    (∀ e, env.gpuProbe = GpuProbe.probeError e →
      check_system_resources env =
        ResourceResult.errText ("Error checking system resources: " ++ e)) := by
  constructor
  · intro hp
    unfold check_system_resources
    rw [h, hp]
    rfl
  · intro e hp
    unfold check_system_resources
    rw [h, hp]
    rfl

/-- Witness for C7 at `baseEnv`, whose probe outcome is `ImportError`. -/
theorem C7_gpu_probe_amended_witness :
    check_system_resources baseEnv = ResourceResult.ok snapMem8 ∧
    snapMem8.gpuAvailable = false ∧
    snapMem8.gpuInfo = "No GPU detected" := by
  have h := (C7_gpu_probe_amended baseEnv rfl).1 rfl
  refine ⟨?_, rfl, rfl⟩
  rw [h]
  with_unfolding_all rfl

/-- C5: each of the two fixed keyword sets contributes at most one
manifest-derived finding however many of its keywords match; a manifest
with both "transformers" and "diffusers" yields exactly one large-models
finding, and a manifest with "torch>=2.0" yields exactly one ML-framework
finding and zero large-model findings. -/
theorem C5_at_most_one_finding (content : String) :
    (manifestFindings content).countP
        (fun t => t == "ML framework detected - may require GPU/RAM") ≤ 1 ∧
    (manifestFindings content).countP
        (fun t => t == "Large ML models detected - high GPU/VRAM recommended") ≤ 1 ∧
    detect_heavy_requirements
        { baseEnv with reqFile := some (Except.ok "transformers\ndiffusers") } =
      Except.ok ["Large ML models detected - high GPU/VRAM recommended"] ∧
    detect_heavy_requirements
        { baseEnv with reqFile := some (Except.ok "torch>=2.0") } =
      Except.ok ["ML framework detected - may require GPU/RAM"] := by
  refine ⟨?_, ?_, by with_unfolding_all rfl, by with_unfolding_all rfl⟩ <;>
  · unfold manifestFindings
    by_cases h1 : (["tensorflow", "torch", "keras"].any
        (fun lib => strIn lib content.toLower)) = true <;>
    by_cases h2 : (["transformers", "diffusers"].any
        (fun lib => strIn lib content.toLower)) = true <;>
      simp [h1, h2]

/-- The host of `baseEnv` with no manifest and one model-referencing
source file. -/
def envNoManifest : Env :=
  { baseEnv with files := [⟨"model.py", Except.ok "import torch\nbert = 1"⟩] }

/-- C8: without a `requirements.txt`, the dependency list is the empty
list (not an error) and the heavy-usage findings contain neither of the
two manifest-derived messages. -/
theorem C8_no_manifest (env : Env) (h : env.reqFile = none) :
    analyze_project_dependencies env = AnalyzeResult.ok [] ∧
    ∀ fs, detect_heavy_requirements env = Except.ok fs →
      "ML framework detected - may require GPU/RAM" ∉ fs ∧
      "Large ML models detected - high GPU/VRAM recommended" ∉ fs := by
  constructor
  · unfold analyze_project_dependencies
    rw [h]
  · intro fs hfs
    unfold detect_heavy_requirements at hfs
    rw [h] at hfs
    cases hscan : scanFiles env.files with
    | error e =>
      rw [hscan] at hfs
      cases hfs
    | ok fileInds =>
      rw [hscan] at hfs
      cases hfs
      constructor
      · intro hmem
        rw [List.nil_append] at hmem
        by_cases hemp : fileInds.isEmpty = true
        · rw [if_pos hemp] at hmem
          revert hmem
          decide
        · rw [if_neg hemp] at hmem
          rcases scanFiles_mem_shape env.files fileInds hscan _ hmem with ⟨n, hn⟩ | ⟨n, hn⟩
          · exact gpuFileMsg_ne_mlMsg n hn.symm
          · exact refFileMsg_ne_mlMsg n hn.symm
      · intro hmem
        rw [List.nil_append] at hmem
        by_cases hemp : fileInds.isEmpty = true
        · rw [if_pos hemp] at hmem
          revert hmem
          decide
        · rw [if_neg hemp] at hmem
          rcases scanFiles_mem_shape env.files fileInds hscan _ hmem with ⟨n, hn⟩ | ⟨n, hn⟩
          · exact gpuFileMsg_ne_largeMsg n hn.symm
          · exact refFileMsg_ne_largeMsg n hn.symm

/-- Witness for C8 at `envNoManifest`. -/
theorem C8_no_manifest_witness :
    analyze_project_dependencies envNoManifest = AnalyzeResult.ok [] ∧
    "ML framework detected - may require GPU/RAM" ∉
      ["Large ML model reference detected in model.py"] ∧
    "Large ML models detected - high GPU/VRAM recommended" ∉
      ["Large ML model reference detected in model.py"] := by
  have h := C8_no_manifest envNoManifest rfl
  have h2 := h.2 ["Large ML model reference detected in model.py"]
    (by with_unfolding_all rfl)
  exact ⟨h.1, h2.1, h2.2⟩

/-- C9: each of the four defined operation names dispatches to the
corresponding implementation (a raise from the callee propagating as the
outcome), and any other name fails with `ValueError` whose message
"Unknown tool: <name>" names the invalid tool. -/
theorem C9_dispatch (env : Env) (name : String)
    (h : name ∉ ["check_system_resources", "analyze_project_dependencies",
      "detect_heavy_requirements", "generate_readiness_report"]) :
    call_tool "check_system_resources" env =
      CallOutcome.resourceRes (check_system_resources env) ∧
    call_tool "analyze_project_dependencies" env =
      CallOutcome.analyzeRes (analyze_project_dependencies env) ∧
    call_tool "detect_heavy_requirements" env =
      (match detect_heavy_requirements env with
        | Except.ok r => CallOutcome.heavyRes r
        | Except.error e => CallOutcome.raised e) ∧
    call_tool "generate_readiness_report" env =
      (match generate_readiness_report env with
        | Except.ok r => CallOutcome.reportRes r
        | Except.error e => CallOutcome.raised e) ∧
    call_tool name env = CallOutcome.raised ("Unknown tool: " ++ name) ∧
    strIn name ("Unknown tool: " ++ name) = true := by
  have h1 : ¬ name = "check_system_resources" := by
    intro he
    rw [he] at h
    exact h (by decide)
  have h2 : ¬ name = "analyze_project_dependencies" := by
    intro he
    rw [he] at h
    exact h (by decide)
  have h3 : ¬ name = "detect_heavy_requirements" := by
    intro he
    rw [he] at h
    exact h (by decide)
  have h4 : ¬ name = "generate_readiness_report" := by
    intro he
    rw [he] at h
    exact h (by decide)
  refine ⟨rfl, rfl, rfl, rfl, ?_, strIn_of_append _ _⟩
  unfold call_tool
  rw [if_neg h1, if_neg h2, if_neg h3, if_neg h4]

/-- Witness for C9 with the unknown name "foo". -/
theorem C9_dispatch_witness :
    call_tool "check_system_resources" baseEnv =
      CallOutcome.resourceRes (check_system_resources baseEnv) ∧
    call_tool "analyze_project_dependencies" baseEnv =
      CallOutcome.analyzeRes (analyze_project_dependencies baseEnv) ∧
    call_tool "detect_heavy_requirements" baseEnv =
      (match detect_heavy_requirements baseEnv with
        | Except.ok r => CallOutcome.heavyRes r
        | Except.error e => CallOutcome.raised e) ∧
    call_tool "generate_readiness_report" baseEnv =
      (match generate_readiness_report baseEnv with
        | Except.ok r => CallOutcome.reportRes r
        | Except.error e => CallOutcome.raised e) ∧
    call_tool "foo" baseEnv = CallOutcome.raised ("Unknown tool: " ++ "foo") ∧
    strIn "foo" ("Unknown tool: " ++ "foo") = true :=
  C9_dispatch baseEnv "foo" (by decide)

/-- C10: the heavy-requirements manifest scan is a substring test on the
whole lowercased file, so a keyword inside a comment line or inside a
longer package name still triggers the finding even though the dependency
list excludes the comment and carries only the longer name. -/
theorem C10_substring_scan (content : String)
    (h : strIn "torch" content.toLower = true) :
    "ML framework detected - may require GPU/RAM" ∈ manifestFindings content ∧
    manifestFindings "# torch" = ["ML framework detected - may require GPU/RAM"] ∧
    parseRequirements (pyLines "# torch") = [] ∧
    manifestFindings "pytorch-lightning" =
      ["ML framework detected - may require GPU/RAM"] ∧
    parseRequirements (pyLines "pytorch-lightning") = ["pytorch-lightning"] := by
  refine ⟨?_, by with_unfolding_all rfl, by with_unfolding_all rfl,
    by with_unfolding_all rfl, by with_unfolding_all rfl⟩
  have hany : (["tensorflow", "torch", "keras"].any
      (fun lib => strIn lib content.toLower)) = true := by
    simp only [List.any_cons, List.any_nil, Bool.or_eq_true]
    exact Or.inr (Or.inl h)
  simp [manifestFindings, hany]

/-- Witness for C10 at the manifest content "pytorch-lightning". -/
theorem C10_substring_scan_witness :
    "ML framework detected - may require GPU/RAM" ∈
      manifestFindings "pytorch-lightning" ∧
    parseRequirements (pyLines "pytorch-lightning") = ["pytorch-lightning"] := by
  have h := C10_substring_scan "pytorch-lightning" (by with_unfolding_all rfl)
  exact ⟨h.1, h.2.2.2.2⟩

end RuntimeReadiness
